import Mathlib

/-!
Verification of the Ohio Rate Watch daily pipeline against its specification.

This file shallow-embeds the core pipeline of the repository:

* `detectChanges`      — src/scraper/energy-choice-scraper.js (HTML scraper,
                         suppliers matched by name only)
* `detectChangesXml`   — the XML-export scraper variant (suppliers matched by
                         (name, termMonths, rateType)); offers there carry an
                         optional stable `offerId`
* the validation gate, significance filter, top-20 cap and `recordRateEvents`
  from src/scripts/daily-check.js `main`
* `sendSubscriberAlerts`'s per-subscriber alert decision
* the best-fixed-offer SQL query and the persistence layer of
  src/lib/history-store.js

Machine reals are modelled by `ℚ`; JavaScript `null`/`undefined` by `Option`.
JavaScript's `x.toFixed(2)` (round to two decimals, ties towards +∞) is
modelled by `toFixed2`; `Math.round` by `round` (both round half up).
Division by zero in `ℚ` yields `0` where JavaScript would yield `Infinity`;
theorems below never depend on the value of a quotient with zero divisor.
Presentation-only string fields of change records (the `summary` text) are
omitted.
-/

namespace RateWatch

/-- Rate kind of an offer, as normalised by both scrapers
(`fixed` / `variable` / `unknown`). -/
inductive RateType
  | fixed
  | variableType
  | unknown
deriving DecidableEq

/-- One supplier offer on a scraped rate page.  `price` is `none` when the
source value failed to parse (`isNaN`); `offerId` is the source-provided
stable id, set only by the XML-export scraper. -/
structure Supplier where
  name : String
  price : Option ℚ
  rateType : RateType
  termMonths : Option ℤ
  offerId : Option String
deriving DecidableEq

/-- One scraped rate page: the result of `fetchRatePage` for one
(category, territoryId, rateCode) combination. -/
structure Page where
  category : String
  territoryId : ℤ
  rateCode : ℤ
  territoryName : Option String
  defaultRate : Option ℚ
  defaultRateText : Option String
  suppliers : List Supplier
deriving DecidableEq

/-- Event types appearing in `recordRateEvents` of daily-check.js and in the
`rate_events` documentation of the methodology document. -/
inductive ChangeType
  | default_rate
  | supplier_rate
  | new_offer
  | removed_offer
deriving DecidableEq

/-- A change record as produced by `detectChanges` (summary text omitted).
`changePct` holds the percentage change after `toFixed(2)` rounding, the
value all downstream filtering and sorting reads back via `parseFloat`. -/
structure Change where
  ctype : ChangeType
  category : String
  territoryId : ℤ
  rateCode : ℤ
  territory : String
  supplier : Option String
  prevRate : ℚ
  currRate : ℚ
  changePct : ℚ
  effectiveText : Option String
deriving DecidableEq

/-- JavaScript `x.toFixed(2)` followed by `parseFloat`: round to two decimal
places, ties towards the larger value. -/
def toFixed2 (x : ℚ) : ℚ := (round (x * 100) : ℤ) / 100

/-- Models `((curr - prev) / prev * 100).toFixed(2)` from both `detectChanges`
implementations. -/
def pctOf (prevRate currRate : ℚ) : ℚ := toFixed2 ((currRate - prevRate) / prevRate * 100)

/-- Models `previous.find(p => p.category === c.category && p.territoryId === c.territoryId
&& p.rateCode === c.rateCode)` — page matching, identical in both scrapers. -/
def findPrevPage (previous : List Page) (c : Page) : Option Page :=
  previous.find? fun p =>
    decide (p.category = c.category ∧ p.territoryId = c.territoryId ∧ p.rateCode = c.rateCode)

/-- Models `curr.territoryName || (string of territory id)` with JavaScript
falsiness of the empty string. -/
def territoryLabel (c : Page) : String :=
  match c.territoryName with
  | some n => if n = "" then "Territory " ++ toString c.territoryId else n
  | none => "Territory " ++ toString c.territoryId

/-- Default/SCO-rate comparison of `detectChanges`: a change is pushed when
both values are non-null and differ (no threshold). -/
def defaultRateChanges (prev c : Page) : List Change :=
  match prev.defaultRate, c.defaultRate with
  | some dp, some dc =>
      if dp ≠ dc then
        [{ ctype := ChangeType.default_rate
           category := c.category
           territoryId := c.territoryId
           rateCode := c.rateCode
           territory := territoryLabel c
           supplier := none
           prevRate := dp
           currRate := dc
           changePct := pctOf dp dc
           effectiveText := c.defaultRateText }]
      else []
  | _, _ => []

/-- Supplier comparison of the HTML scraper's `detectChanges`: the prior
supplier is looked up by `s.name === currSupplier.name` alone; pairs with a
null price on either side are skipped; a change is pushed when the prices
differ. -/
def supplierChangeFor (prev c : Page) (cs : Supplier) : Option Change :=
  match prev.suppliers.find? (fun s => decide (s.name = cs.name)) with
  | none => none
  | some ps =>
      match ps.price, cs.price with
      | some pp, some cp =>
          if pp ≠ cp then
            some { ctype := ChangeType.supplier_rate
                   category := c.category
                   territoryId := c.territoryId
                   rateCode := c.rateCode
                   territory := territoryLabel c
                   supplier := some cs.name
                   prevRate := pp
                   currRate := cp
                   changePct := pctOf pp cp
                   effectiveText := none }
          else none
      | _, _ => none

/-- All supplier changes of one page pair, in the current page's order. -/
def supplierChanges (prev c : Page) : List Change :=
  c.suppliers.filterMap (supplierChangeFor prev c)

/-- Function `detectChanges(previous, current)` of src/scraper/energy-choice-scraper.js:
per current page, find the matching prior page, compare the default rate,
then compare each supplier (matched by name). -/
def detectChanges (previous current : List Page) : List Change :=
  current.foldr
    (fun c acc =>
      match findPrevPage previous c with
      | none => acc
      | some prev => defaultRateChanges prev c ++ supplierChanges prev c ++ acc)
    []

/-- Supplier comparison of the XML-export scraper's `detectChanges`: the prior
supplier is looked up by `s.name === c.name && s.termMonths === c.termMonths
&& s.rateType === c.rateType`.  The stable `offerId` is never consulted. -/
def supplierChangeForXml (prev c : Page) (cs : Supplier) : Option Change :=
  match prev.suppliers.find? (fun s =>
      decide (s.name = cs.name ∧ s.termMonths = cs.termMonths ∧ s.rateType = cs.rateType)) with
  | none => none
  | some ps =>
      match ps.price, cs.price with
      | some pp, some cp =>
          if pp ≠ cp then
            some { ctype := ChangeType.supplier_rate
                   category := c.category
                   territoryId := c.territoryId
                   rateCode := c.rateCode
                   territory := territoryLabel c
                   supplier := some cs.name
                   prevRate := pp
                   currRate := cp
                   changePct := pctOf pp cp
                   effectiveText := none }
          else none
      | _, _ => none

/-- All supplier changes of one page pair for the XML-export variant. -/
def supplierChangesXml (prev c : Page) : List Change :=
  c.suppliers.filterMap (supplierChangeForXml prev c)

/-- Function `detectChanges(previous, current)` of the XML-export scraper variant. -/
def detectChangesXml (previous current : List Page) : List Change :=
  current.foldr
    (fun c acc =>
      match findPrevPage previous c with
      | none => acc
      | some prev => defaultRateChanges prev c ++ supplierChangesXml prev c ++ acc)
    []

/-! ## Validation gate (daily-check.js `main`, lines 618–631) -/

/-- Total offer count of a batch:
`current.reduce((sum, page) => sum + (page.suppliers?.length || 0), 0)`.
Every parsed supplier row counts, whatever fields it is missing. -/
def totalOffers (pages : List Page) : ℕ :=
  (pages.map fun p => p.suppliers.length).sum

/-- Models `const minAcceptable = median ? Math.floor(median * 0.3) : 30;` —
the acceptance floor.  `median` is `getSevenDayMedian()`'s result
(`null` when no successful run lies in the trailing 7 days; a zero median is
also mapped to `null` there by `rows[0]?.median || null`, and a zero value
would in any case be falsy here, so `some 0` falls back to 30 as well). -/
def minAcceptable (median : Option ℚ) : ℤ :=
  match median with
  | some m => if m = 0 then 30 else ⌊m * (3 / 10)⌋
  | none => 30

/-- The gate decision: `if (totalOffers < minAcceptable) { … reject … }`,
accept otherwise. -/
def gateAccepts (median : Option ℚ) (total : ℕ) : Bool :=
  decide (minAcceptable median ≤ (total : ℤ))

/-! ## Significance filter, top-20 cap and event recording
(daily-check.js `main`, lines 657–680) -/

/-- The noise filter applied to `detectChanges`'s output:
default-rate changes pass unconditionally, supplier changes only when the
absolute difference is ≥ 0.01 and the (already `toFixed(2)`-rounded)
percentage is ≥ 5. -/
def significant (c : Change) : Bool :=
  match c.ctype with
  | ChangeType.default_rate => true
  | _ => decide ((1 : ℚ) / 100 ≤ |c.currRate - c.prevRate| ∧ (5 : ℚ) ≤ |c.changePct|)

/-- Stable descending insertion by `|changePct|`. -/
def insertByPctDesc (c : Change) : List Change → List Change
  | [] => [c]
  | d :: ds =>
      if |d.changePct| ≤ |c.changePct| then c :: d :: ds
      else d :: insertByPctDesc c ds

/-- Models `changes.sort((a, b) => |b.changePct| - |a.changePct|)`: stable sort by
absolute percentage change, descending (JavaScript's sort is stable). -/
def sortByPctDesc (l : List Change) : List Change :=
  l.foldr insertByPctDesc []

/-- Models `if (changes.length > 20) changes = changes.slice(0, 20);` applied after
the sort. -/
def capTop20 (l : List Change) : List Change :=
  (sortByPctDesc l).take 20

/-- The filtered change list of `main`. -/
def significantChanges (allChanges : List Change) : List Change :=
  allChanges.filter significant

/-- The changes handed to `recordRateEvents` (and used for alerting): the
significance filter followed by the sort and the top-20 cap. -/
def recordedChanges (previous current : List Page) : List Change :=
  capTop20 (significantChanges (detectChanges previous current))

/-- Values of the `rate_events.event_type` column written by
`recordRateEvents`. -/
inductive EventType
  | new_offer
  | removed_offer
  | rate_change
deriving DecidableEq

/-- Models `recordRateEvents`'s mapping of a change's `type` string onto the
`rate_events.event_type` column: anything that is not `new_offer` or
`removed_offer` (in particular both `default_rate` and `supplier_rate`)
is stored as `rate_change`. -/
def eventTypeOf (c : Change) : EventType :=
  match c.ctype with
  | ChangeType.new_offer => EventType.new_offer
  | ChangeType.removed_offer => EventType.removed_offer
  | _ => EventType.rate_change

/-! ## Best-offer query and subscriber alert decision
(daily-check.js `sendSubscriberAlerts`, lines 326–401; the offer query is
the SQL on `supplier_offers`, lines 336–345) -/

/-- A row of the `supplier_offers` table as read by the best-offer query. -/
structure OfferRow where
  supplier_name : String
  price : Option ℚ
  term_months : Option ℤ
  etf : Option ℚ
  sign_up_url : Option String
  rate_type : RateType
  is_intro : Bool
  offer_details : Option String
deriving DecidableEq

/-- ASCII lower-casing of one character (the bundle patterns are ASCII). -/
def toLowerASCII (ch : Char) : Char :=
  if 65 ≤ ch.toNat ∧ ch.toNat ≤ 90 then Char.ofNat (ch.toNat + 32) else ch

/-- The character list of `s`, lower-cased. -/
def lowerChars (s : String) : List Char := s.data.map toLowerASCII

/-- Whether `pat` is a prefix of the second list. -/
def prefixMatches : List Char → List Char → Bool
  | [], _ => true
  | _ :: _, [] => false
  | p :: ps, c :: cs => if p = c then prefixMatches ps cs else false

/-- Whether `pat` occurs as a contiguous sublist. -/
def containsChars (pat : List Char) : List Char → Bool
  | [] => pat.isEmpty
  | c :: cs => prefixMatches pat (c :: cs) || containsChars pat cs

/-- The suffix following the first occurrence of `pat`, if any. -/
def afterMatch (pat : List Char) : List Char → Option (List Char)
  | [] => if pat.isEmpty then some [] else none
  | c :: cs =>
      if prefixMatches pat (c :: cs) then some ((c :: cs).drop pat.length)
      else afterMatch pat cs

/-- Case-insensitive substring test — SQL `ILIKE` with a single `pat`
between two percent wildcards (the patterns used are lower-case). -/
def containsCI (s pat : String) : Bool := containsChars pat.data (lowerChars s)

/-- Case-insensitive match of the two-gap `ILIKE` pattern: `a` occurs, and
`b` occurs somewhere after it. -/
def containsCI2 (s a b : String) : Bool :=
  match afterMatch a.data (lowerChars s) with
  | some rest => containsChars b.data rest
  | none => false

/-- The `WHERE` clause of the best-offer query (restricted to the columns it
reads): fixed rate, not introductory, `price > 0.1`, and `offer_details`
matching none of the bundle patterns.  Note SQL three-valued logic: a `NULL`
price fails `price > 0.1` and a `NULL` `offer_details` fails
`NOT ILIKE`, so both exclude the row. -/
def offerQualifies (r : OfferRow) : Bool :=
  decide (r.rate_type = RateType.fixed) && !r.is_intro &&
  (match r.price with
   | some p => decide ((1 : ℚ) / 10 < p)
   | none => false) &&
  (match r.offer_details with
   | some d =>
       !containsCI d "bundle" && !containsCI2 d "electric" "gas" &&
       !containsCI2 d "gas" "electric"
   | none => false)

/-- One step of the minimum-price selection: keep the cheaper of the
accumulator and the next row. -/
def pickCheaper (acc : Option OfferRow) (r : OfferRow) : Option OfferRow :=
  match acc with
  | none => some r
  | some b =>
      match r.price, b.price with
      | some rp, some bp => if rp < bp then some r else some b
      | _, _ => some b

/-- Models `ORDER BY price ASC LIMIT 1`: the minimum-price qualifying row (first of
the qualifying rows among equal prices; SQL leaves ties unspecified, and no
theorem below depends on the tie order). -/
def bestFixedOffer (rows : List OfferRow) : Option OfferRow :=
  (rows.filter offerQualifies).foldl pickCheaper none

/-- A `subscribers` row, restricted to the columns the alert decision reads.
`last_alerted_at` is an epoch timestamp in milliseconds. -/
structure Subscriber where
  id : ℕ
  territory : Option String
  current_rate : Option ℚ
  min_savings_pct : Option ℚ
  last_alerted_at : Option ℤ
  last_alerted_rate : Option ℚ
deriving DecidableEq

/-- JavaScript `a || b` on an optional number: `a` unless it is absent or
zero (falsy). -/
def jsOrQ (a b : Option ℚ) : Option ℚ :=
  match a with
  | some x => if x = 0 then b else some x
  | none => b

/-- Models `Math.round((1 - bestOffer.price / baseline) * 100)` — the savings
percentage, rounded to the nearest integer (ties towards +∞). -/
def savingsPctOf (baseline best : ℚ) : ℤ :=
  round ((1 - best / baseline) * 100)

/-- Models `(baseline - bestOffer.price) * 100` — the estimated monthly dollar
savings (the code's comment: 10 Mcf = 100 ccf of monthly usage). -/
def monthlySavings (baseline best : ℚ) : ℚ :=
  (baseline - best) * 100

/-- Models `sub.min_savings_pct || 15` — the subscriber's threshold with JavaScript
falsiness (absent or zero gives the default 15). -/
def thresholdOf (sub : Subscriber) : ℚ :=
  match sub.min_savings_pct with
  | some t => if t = 0 then 15 else t
  | none => 15

/-- Milliseconds per day (`24 * 60 * 60 * 1000`). -/
def msPerDay : ℤ := 86400000

/-- The per-subscriber alert decision, the body of the inner loop of
`sendSubscriberAlerts` (lines 363–381): whether a personalised alert is
attempted for `sub` on the pass for territory `tKey`, given the territory's
SCO rate, the best offer's price, and the current time `now` (ms).
Mirrors, in order: the null-territory guard, the baseline resolution and
positivity check, the rounded savings-percentage threshold, the 7-day
cooldown, and the 3-percent re-alert delta (skipped when
`last_alerted_rate` is absent or zero, both falsy). -/
def alertFires (tKey : String) (scoRate : Option ℚ) (bestPrice : ℚ) (now : ℤ)
    (sub : Subscriber) : Bool :=
  if sub.territory = none ∧ tKey ≠ "columbia" then false
  else
    match jsOrQ sub.current_rate scoRate with
    | none => false
    | some baseline =>
        if baseline ≤ 0 then false
        else if (savingsPctOf baseline bestPrice : ℚ) < thresholdOf sub then false
        else
          match sub.last_alerted_at with
          | none => true
          | some la =>
              if now - 7 * msPerDay < la then false
              else
                match sub.last_alerted_rate with
                | none => true
                | some lar =>
                    if lar = 0 then true
                    else decide (3 / 100 < |bestPrice - lar| / lar)

/-! ## Orchestration (`main` of daily-check.js, lines 591–741)

`main` is modelled as a function from its run inputs to the externally
observable effects.  Store-write failures (the `catch` branches around
`insertSnapshot`, `insertSupplierOffers` and `recordRateEvents`) are injected
through boolean/counter inputs; `insertSnapshot` and `insertSupplierOffers`
each run in their own `BEGIN`/`COMMIT`/`ROLLBACK` block
(src/lib/history-store.js), so a failed call contributes zero rows, while
`recordRateEvents` issues one auto-committed `INSERT` per event with no
surrounding transaction, so a failure after `k` inserts leaves the first `k`
events committed. -/

/-- Status values of the `scrape_runs.status` column. -/
inductive RunStatus
  | running
  | success
  | invalid
  | failed
deriving DecidableEq

/-- Inputs of one `main` run, after the scraper returned `current`:
the CLI flags, the trailing-7-day median, the baseline file's contents (if
the file exists), and the injected persistence failures. -/
structure MainInputs where
  dryRun : Bool
  forceAlert : Bool
  median : Option ℚ
  current : List Page
  baseline : Option (List Page)
  snapshotInsertFails : Bool
  offersInsertFails : Bool
  eventsFailAfter : Option ℕ
deriving DecidableEq

/-- The externally observable effects of one `main` run. -/
structure MainEffects where
  latestWritten : Bool
  snapshotRowsWritten : ℕ
  offerRowsWritten : ℕ
  runStatus : RunStatus
  runRowCount : ℕ
  runHadErrorMessage : Bool
  discordAlerts : ℕ
  eventsRecorded : List Change
  baselineWritten : Bool
deriving DecidableEq

/-- The `--force-alert` test change injected by `main` (lines 687–699). -/
def forcedTestChange : Change :=
  { ctype := ChangeType.default_rate
    category := "NaturalGas"
    territoryId := 8
    rateCode := 1
    territory := "Columbia Gas of Ohio (West) [TEST]"
    supplier := none
    prevRate := 1071 / 1000
    currRate := 899 / 1000
    changePct := -1606 / 100
    effectiveText := some "March 1 through April 1, 2026" }

/-- The effect model of `main` from the validation gate onwards
(lines 618–741), excluding the subscriber-alert stage which is modelled
separately.  Faithful to the code's order: gate (reject exits with status
`invalid`, a Discord alert, and no writes); `rates-latest.json` write;
`insertSnapshot` and `insertSupplierOffers`, each in a `try`/`catch` whose
failure only logs; `finishScrapeRun(runId, 'success', offerCount)`
unconditionally after them; then, when a baseline file exists, the
filter/sort/cap pipeline and `recordRateEvents`; when it does not, the
baseline file is initialised and no events are recorded; `--force-alert`
injection; and the baseline update, which happens only when the final change
list is non-empty.  Note that `DRY_RUN` is never consulted here. -/
def runMain (inp : MainInputs) : MainEffects :=
  let tot := totalOffers inp.current
  if gateAccepts inp.median tot = false then
    { latestWritten := false
      snapshotRowsWritten := 0
      offerRowsWritten := 0
      runStatus := RunStatus.invalid
      runRowCount := tot
      runHadErrorMessage := true
      discordAlerts := 1
      eventsRecorded := []
      baselineWritten := false }
  else
    let snapRows := if inp.snapshotInsertFails then 0 else tot
    let offerRows := if inp.offersInsertFails then 0 else tot
    let changes :=
      match inp.baseline with
      | some previous => recordedChanges previous inp.current
      | none => []
    let events :=
      match inp.baseline with
      | some previous =>
          let evs := recordedChanges previous inp.current
          match inp.eventsFailAfter with
          | none => evs
          | some k => evs.take k
      | none => []
    let changesFinal :=
      if inp.forceAlert ∧ changes = [] then [forcedTestChange] else changes
    { latestWritten := true
      snapshotRowsWritten := snapRows
      offerRowsWritten := offerRows
      runStatus := RunStatus.success
      runRowCount := offerRows
      runHadErrorMessage := false
      discordAlerts := 0
      eventsRecorded := events
      baselineWritten := inp.baseline.isNone || !changesFinal.isEmpty }

/-- Inputs of one territory pass of `sendSubscriberAlerts`: the dry-run
flag, the territory key, the territory's SCO rate, the best-offer price
returned by the query (if any row qualified), the current time, the
confirmed subscribers returned for this territory, and the set of
subscriber ids whose email delivery would fail. -/
structure AlertInputs where
  dryRun : Bool
  tKey : String
  scoRate : Option ℚ
  bestPrice : Option ℚ
  now : ℤ
  subs : List Subscriber
  deliveryFails : List ℕ
deriving DecidableEq

/-- Observable effects of one territory pass of `sendSubscriberAlerts`. -/
structure AlertEffects where
  emailsSent : List ℕ
  markedAlerted : List ℕ
deriving DecidableEq

/-- Effect model of one territory pass of `sendSubscriberAlerts`
(lines 347–399): with no qualifying offer the territory is skipped; for each
subscriber for whom the decision fires, `sendEmail` is attempted and, unless
it threw, the subscriber's `last_alerted_at`/`last_alerted_rate` row is
updated.  Under `--dry-run`, `sendEmail` returns early without sending and
without throwing, so no email goes out but the `UPDATE subscribers` still
runs. -/
def sendSubscriberAlertsT (inp : AlertInputs) : AlertEffects :=
  match inp.bestPrice with
  | none => { emailsSent := [], markedAlerted := [] }
  | some best =>
      let fired := inp.subs.filter fun s => alertFires inp.tKey inp.scoRate best inp.now s
      let delivered := fired.filter fun s => inp.dryRun || !(inp.deliveryFails.contains s.id)
      { emailsSent := if inp.dryRun then [] else delivered.map (fun s => s.id)
        markedAlerted := delivered.map (fun s => s.id) }

/-! ## Concrete scenarios used by the theorems below -/

/-- A fixed-rate 12-month offer with the given name and price. -/
def mkSupplier (nm : String) (p : Option ℚ) : Supplier :=
  { name := nm, price := p, rateType := RateType.fixed, termMonths := some 12, offerId := none }

/-- A natural-gas page for territory 1, rate code 1, with the given default
rate and suppliers. -/
def mkPage (dr : Option ℚ) (ss : List Supplier) : Page :=
  { category := "NaturalGas", territoryId := 1, rateCode := 1, territoryName := some "T",
    defaultRate := dr, defaultRateText := none, suppliers := ss }

/-- C1 boundary scenario: one offer against a 7-day median of 5.
Thirty percent of 5 is 1.5, so the batch is strictly below the spec's
threshold, yet `Math.floor(5 * 0.3) = 1` lets it through. -/
def c1AcceptLowInp : MainInputs :=
  { dryRun := false, forceAlert := false, median := some 5,
    current := [mkPage none [mkSupplier "a" (some 1)]], baseline := none,
    snapshotInsertFails := false, offersInsertFails := false, eventsFailAfter := none }

/-- C1 rejection scenario: five offers against a 7-day median of 200
(the spec's own example: 5 offers vs. median 200 must reject). -/
def c1RejectInp : MainInputs :=
  { dryRun := false, forceAlert := false, median := some 200,
    current := [mkPage none ((List.range 5).map fun i => mkSupplier (toString i) (some 1))],
    baseline := none,
    snapshotInsertFails := false, offersInsertFails := false, eventsFailAfter := none }

/-- A supplier-free natural-gas page for territory `tid` whose default/SCO
rate is `r`. -/
def drPage (tid : ℤ) (r : ℚ) : Page :=
  { category := "NaturalGas", territoryId := tid, rateCode := 1, territoryName := some "T",
    defaultRate := some r, defaultRateText := none, suppliers := [] }

/-- C2 cap scenario, prior batch: 21 territories, all with default rate 1. -/
def c2PrevPages : List Page :=
  (List.range 21).map fun i => drPage i 1

/-- C2 cap scenario, current batch: territory 0's default rate moved by 1
percent, the twenty others by 10 percent — 21 default-rate changes, every
one of which passes the significance filter unconditionally, but the one
with the smallest percentage is cut by the top-20 cap. -/
def c2CurrPages : List Page :=
  (List.range 21).map fun i => drPage i (if i = 0 then 101 / 100 else 11 / 10)

/-- C2 witness scenario, prior page: one supplier at price 1. -/
def c2wPrevPage : Page := mkPage none [mkSupplier "w" (some 1)]

/-- C2 witness scenario, current page: the supplier's price doubled. -/
def c2wCurrPage : Page := mkPage none [mkSupplier "w" (some 2)]

/-- The single change `detectChanges` emits for the C2 witness scenario. -/
def c2wChange : Change :=
  { ctype := ChangeType.supplier_rate, category := "NaturalGas", territoryId := 1,
    rateCode := 1, territory := "T", supplier := some "w", prevRate := 1, currRate := 2,
    changePct := 100, effectiveText := none }

/-- C3 rounding scenario: a subscriber with a self-reported rate of 1 and
the default threshold.  Against a best price of 0.854 the true savings
percentage is 14.6, strictly below the threshold 15. -/
def c3Sub : Subscriber :=
  { id := 3, territory := some "columbia", current_rate := some 1, min_savings_pct := none,
    last_alerted_at := none, last_alerted_rate := none }

/-- C4 scenario, prior page: supplier "GoneCo" exists. -/
def c4PrevPage : Page := mkPage none [mkSupplier "GoneCo" (some 1)]

/-- C4 scenario, current page (same page key): "GoneCo" disappeared and
"NewCo" appeared. -/
def c4CurrPage : Page := mkPage none [mkSupplier "NewCo" (some 1)]

/-- C5 partial-failure scenario: gate passes (median 1), the baseline holds
the prior batch, the price of "a" doubled (a significant change), and the
`insertSupplierOffers` call fails while `insertSnapshot` succeeds. -/
def c5Inp : MainInputs :=
  { dryRun := false, forceAlert := false, median := some 1,
    current := [mkPage none [mkSupplier "a" (some 2)]],
    baseline := some [mkPage none [mkSupplier "a" (some 1)]],
    snapshotInsertFails := false, offersInsertFails := true, eventsFailAfter := none }

/-- The full event list a `main` run would record absent any event-insert
failure (used to state that the recorded events are always a prefix of it). -/
def fullEvents (inp : MainInputs) : List Change :=
  match inp.baseline with
  | some previous => recordedChanges previous inp.current
  | none => []

/-- C6 scenario, prior offer: stable id "X". -/
def c6SupPrev : Supplier :=
  { name := "Acme", price := some 1, rateType := RateType.fixed, termMonths := some 12,
    offerId := some "X" }

/-- C6 scenario, current offer: same (name, term, rate kind) but a different
stable id "Y" — per the claim this is a different offer and must not be
paired. -/
def c6SupCurr : Supplier :=
  { name := "Acme", price := some 2, rateType := RateType.fixed, termMonths := some 12,
    offerId := some "Y" }

/-- C6 scenario, prior page. -/
def c6PrevPage : Page := mkPage none [c6SupPrev]

/-- C6 scenario, current page. -/
def c6CurrPage : Page := mkPage none [c6SupCurr]

/-- Erase the stable offer id of one supplier. -/
def stripId (s : Supplier) : Supplier :=
  { s with offerId := none }

/-- Erase every stable offer id on a page. -/
def stripIdsPage (p : Page) : Page :=
  { p with suppliers := p.suppliers.map stripId }

/-- Erase every stable offer id in a batch. -/
def stripIds (ps : List Page) : List Page :=
  ps.map stripIdsPage

/-- C7 scenario: a page that parsed structurally into 40 offers, every one
of which is missing its price (and carries an empty supplier name) —
the "returned garbage" page of the claim. -/
def garbagePage : Page :=
  { category := "NaturalGas", territoryId := 8, rateCode := 1,
    territoryName := some "Columbia Gas of Ohio (West)", defaultRate := none,
    defaultRateText := none,
    suppliers := List.replicate 40
      { name := "", price := none, rateType := RateType.unknown, termMonths := none,
        offerId := none } }

/-- C7 scenario inputs: the garbage batch with no 7-day median. -/
def c7Inp : MainInputs :=
  { dryRun := false, forceAlert := false, median := none, current := [garbagePage],
    baseline := none,
    snapshotInsertFails := false, offersInsertFails := false, eventsFailAfter := none }

/-- C8/C9 subscriber: self-reported rate 1.071, default threshold, never
alerted. -/
def c9Sub : Subscriber :=
  { id := 7, territory := some "columbia", current_rate := some (1071 / 1000),
    min_savings_pct := none, last_alerted_at := none, last_alerted_rate := none }

/-- C8 alert-stage scenario under `--dry-run`: one firing subscriber. -/
def c8AlertInp : AlertInputs :=
  { dryRun := true, tKey := "columbia", scoRate := none, bestPrice := some (850 / 1000),
    now := 0, subs := [c9Sub], deliveryFails := [] }

/-- C8 main-stage scenario under `--dry-run`: an accepted one-offer batch. -/
def c8MainInp : MainInputs :=
  { dryRun := true, forceAlert := false, median := some 1,
    current := [mkPage none [mkSupplier "a" (some 2)]], baseline := none,
    snapshotInsertFails := false, offersInsertFails := false, eventsFailAfter := none }

/-- C10 scenario, prior page: supplier "ZeroCo" with a parsed price of
exactly 0 (the HTML price pattern matches the digit string "0", so
`parseFloat` yields 0, which is not `null`). -/
def c10PrevPage : Page := mkPage none [mkSupplier "ZeroCo" (some 0)]

/-- C10 scenario, current page: "ZeroCo" now at price 0.5. -/
def c10CurrPage : Page := mkPage none [mkSupplier "ZeroCo" (some (1 / 2))]

/-- C10 witness row: a qualifying fixed offer at price 0.9. -/
def c10Row : OfferRow :=
  { supplier_name := "GoodCo", price := some (9 / 10), term_months := some 12, etf := none,
    sign_up_url := none, rate_type := RateType.fixed, is_intro := false,
    offer_details := some "12 month fixed rate plan" }

/-- C10 witness supplier: a current offer whose price failed to parse. -/
def c10NullSup : Supplier := mkSupplier "ZeroCo" none

/-! ## General lemmas -/

/-- Inserting into the sorted list is a permutation of consing. -/
theorem insertByPctDesc_perm (c : Change) (l : List Change) :
    (insertByPctDesc c l).Perm (c :: l) := by
  induction l with
  | nil => exact List.Perm.refl _
  | cons d ds ih =>
      rw [insertByPctDesc]
      split
      · exact List.Perm.refl _
      · exact (ih.cons d).trans (List.Perm.swap c d ds)

/-- The sort is a permutation of its input. -/
theorem sortByPctDesc_perm (l : List Change) : (sortByPctDesc l).Perm l := by
  induction l with
  | nil => exact List.Perm.refl _
  | cons c cs ih =>
      simpa [sortByPctDesc] using
        (insertByPctDesc_perm c (sortByPctDesc cs)).trans (ih.cons c)

/-- The significance filter, as a proposition. -/
theorem significant_eq_true_iff (c : Change) :
    significant c = true ↔
      (c.ctype = ChangeType.default_rate ∨
        ((1 : ℚ) / 100 ≤ |c.currRate - c.prevRate| ∧ (5 : ℚ) ≤ |c.changePct|)) := by
  rcases c with ⟨ct, cat, tid, rc, ter, sup, pr, cr, pct, eff⟩
  cases ct <;> simp [significant]

/-- A row produced by the minimum-price fold is the accumulator or a list
element. -/
theorem foldl_pickCheaper_mem (l : List OfferRow) :
    ∀ (acc : Option OfferRow) (r : OfferRow),
      l.foldl pickCheaper acc = some r → acc = some r ∨ r ∈ l := by
  induction l with
  | nil => intro acc r h; exact Or.inl h
  | cons x xs ih =>
      intro acc r h
      rcases ih (pickCheaper acc x) r h with h1 | h2
      · rcases acc with _ | b
        · right
          rw [pickCheaper] at h1
          exact (Option.some_inj.mp h1) ▸ List.mem_cons_self x xs
        · rw [pickCheaper] at h1
          rcases hxp : x.price with _ | xp
          · rw [hxp] at h1
            rcases hbp : b.price with _ | bp
            · rw [hbp] at h1
              exact Or.inl h1
            · rw [hbp] at h1
              exact Or.inl h1
          · rw [hxp] at h1
            rcases hbp : b.price with _ | bp
            · rw [hbp] at h1
              exact Or.inl h1
            · rw [hbp] at h1
              have h2 : (if xp < bp then some x else some b) = some r := h1
              by_cases hlt : xp < bp
              · rw [if_pos hlt] at h2
                exact Or.inr ((Option.some_inj.mp h2) ▸ List.mem_cons_self x xs)
              · rw [if_neg hlt] at h2
                exact Or.inl h2
      · exact Or.inr (List.mem_cons_of_mem x h2)

/-- Page matching is unaffected by erasing offer ids. -/
theorem findPrevPage_stripIds (previous : List Page) (c : Page) :
    findPrevPage (stripIds previous) (stripIdsPage c) =
      (findPrevPage previous c).map stripIdsPage := by
  unfold findPrevPage stripIds
  rw [List.find?_map]
  have hpred :
      ((fun p : Page =>
          decide (p.category = (stripIdsPage c).category ∧
            p.territoryId = (stripIdsPage c).territoryId ∧
            p.rateCode = (stripIdsPage c).rateCode)) ∘ stripIdsPage) =
        fun p : Page =>
          decide (p.category = c.category ∧ p.territoryId = c.territoryId ∧
            p.rateCode = c.rateCode) := by
    funext p
    simp [stripIdsPage]
  rw [hpred]

/-- Default-rate comparison is unaffected by erasing offer ids. -/
theorem defaultRateChanges_stripIds (prev c : Page) :
    defaultRateChanges (stripIdsPage prev) (stripIdsPage c) = defaultRateChanges prev c := rfl

/-- The XML-variant supplier comparison is unaffected by erasing offer ids:
its matching predicate reads only name, term and rate kind. -/
theorem supplierChangeForXml_stripIds (prev c : Page) (cs : Supplier) :
    supplierChangeForXml (stripIdsPage prev) (stripIdsPage c) (stripId cs) =
      supplierChangeForXml prev c cs := by
  unfold supplierChangeForXml
  have hsup : (stripIdsPage prev).suppliers = prev.suppliers.map stripId := rfl
  rw [hsup, List.find?_map]
  have hpred :
      ((fun s : Supplier =>
          decide (s.name = (stripId cs).name ∧ s.termMonths = (stripId cs).termMonths ∧
            s.rateType = (stripId cs).rateType)) ∘ stripId) =
        fun s : Supplier =>
          decide (s.name = cs.name ∧ s.termMonths = cs.termMonths ∧ s.rateType = cs.rateType) := by
    funext s
    simp [stripId]
  rw [hpred]
  cases prev.suppliers.find? fun s : Supplier =>
      decide (s.name = cs.name ∧ s.termMonths = cs.termMonths ∧ s.rateType = cs.rateType) with
  | none => rfl
  | some ps => rfl

/-- The per-page XML supplier changes are unaffected by erasing offer ids. -/
theorem supplierChangesXml_stripIds (prev c : Page) :
    supplierChangesXml (stripIdsPage prev) (stripIdsPage c) = supplierChangesXml prev c := by
  unfold supplierChangesXml
  have hsup : (stripIdsPage c).suppliers = c.suppliers.map stripId := rfl
  rw [hsup, List.filterMap_map]
  congr 1
  funext cs
  exact supplierChangeForXml_stripIds prev c cs

/-! ## Claim theorems -/

/-- C6 (counterexample): the claim says matching prefers the source-provided
stable offer id, falling back to (name, term, rate kind) only when the id is
absent.  Here the prior and current offers both carry ids, and the ids
differ ("X" vs "Y"), so id-preferring matching would not pair them — yet
`detectChanges` of the XML scraper pairs them by (name, term, rate kind)
and emits a `supplier_rate` change from price 1 to price 2. -/
theorem c6_counterexample :
    ((detectChangesXml [c6PrevPage] [c6CurrPage]).map fun c =>
        (c.ctype, c.supplier, c.prevRate, c.currRate)) =
      [(ChangeType.supplier_rate, some "Acme", 1, 2)] ∧
    c6SupPrev.offerId = some "X" ∧ c6SupCurr.offerId = some "Y" ∧
    c6SupPrev.offerId ≠ c6SupCurr.offerId := by
  refine ⟨?_, rfl, rfl, by decide⟩
  norm_num [detectChangesXml, c6PrevPage, c6CurrPage, c6SupPrev, c6SupCurr, mkPage,
    findPrevPage, defaultRateChanges, supplierChangesXml, supplierChangeForXml,
    List.find?_cons, List.filterMap_cons]

/-- C6 (amended): the Change Detector never consults the stable offer id:
erasing every offer id from both batches leaves its output unchanged —
offers are matched solely by (supplier name, term months, rate kind) within
the same (category, territory, rate-class) page. -/
theorem c6_amended (previous current : List Page) :
    detectChangesXml (stripIds previous) (stripIds current) =
      detectChangesXml previous current := by
  induction current with
  | nil => rfl
  | cons c cs ih =>
      show (match findPrevPage (stripIds previous) (stripIdsPage c) with
            | none => detectChangesXml (stripIds previous) (stripIds cs)
            | some prev =>
                defaultRateChanges prev (stripIdsPage c) ++
                  supplierChangesXml prev (stripIdsPage c) ++
                  detectChangesXml (stripIds previous) (stripIds cs)) =
          (match findPrevPage previous c with
            | none => detectChangesXml previous cs
            | some prev =>
                defaultRateChanges prev c ++ supplierChangesXml prev c ++
                  detectChangesXml previous cs)
      rw [findPrevPage_stripIds]
      cases hf : findPrevPage previous c with
      | none => exact ih
      | some prev =>
          show defaultRateChanges (stripIdsPage prev) (stripIdsPage c) ++
              supplierChangesXml (stripIdsPage prev) (stripIdsPage c) ++
              detectChangesXml (stripIds previous) (stripIds cs) =
            defaultRateChanges prev c ++ supplierChangesXml prev c ++
              detectChangesXml previous cs
          rw [defaultRateChanges_stripIds, supplierChangesXml_stripIds, ih]

/-- C4 (evaluation at the failing input): an offer ("GoneCo") present in the
prior accepted batch but absent from the current one, and an offer ("NewCo")
present only in the current one, yield no events at all — `detectChanges`
(both variants) emits neither the `removed_offer` nor the `new_offer` event
the claim (and the repository's methodology document) promises. -/
theorem c4_no_new_or_removed_events :
    detectChanges [c4PrevPage] [c4CurrPage] = [] ∧
    detectChangesXml [c4PrevPage] [c4CurrPage] = [] := by decide

/-- C9 (counterexample): for baseline 1.071 and best offer 0.850 the engine
computes `Math.round((1 - 0.850/1.071) * 100) = 21`, not the claim's savings
percentage of 20.6. -/
theorem c9_counterexample :
    savingsPctOf (1071 / 1000) (850 / 1000) = 21 ∧
    (savingsPctOf (1071 / 1000) (850 / 1000) : ℚ) ≠ 103 / 5 := by
  have h : savingsPctOf (1071 / 1000) (850 / 1000) = 21 := by
    rw [savingsPctOf, round_eq]
    norm_num
  refine ⟨h, ?_⟩
  rw [h]
  norm_num

/-- C9 (amended): in the scenario the alert fires, with the savings
percentage rounded to 21 (the integer the engine reports) and estimated
monthly dollar savings (1.071 − 0.850) × 100 = 22.10 — the code multiplies
by 100, the canonical-unit (ccf) equivalent of the 10 Mcf/month usage
assumption. -/
theorem c9_amended :
    alertFires "columbia" none (850 / 1000) 0 c9Sub = true ∧
    savingsPctOf (1071 / 1000) (850 / 1000) = 21 ∧
    monthlySavings (1071 / 1000) (850 / 1000) = 221 / 10 := by
  refine ⟨?_, ?_, ?_⟩
  · norm_num [alertFires, c9Sub, jsOrQ, thresholdOf, savingsPctOf, round_eq]
  · rw [savingsPctOf, round_eq]
    norm_num
  · rw [monthlySavings]
    norm_num

/-- C7 (evaluation at the failing input): a batch consisting of one page of
40 offers, every one of which is missing its price, passes the validation
gate (40 ≥ the fallback floor of 30) and the run proceeds to a successful
persist — the gate of `main` checks only the offer count against the
trailing-median threshold and has no required-field check, although the
claim (and the repository's methodology document, "Key field presence")
requires rejection. -/
theorem c7_no_required_field_check :
    (garbagePage.suppliers.all fun s => s.price.isNone) = true ∧
    totalOffers [garbagePage] = 40 ∧
    gateAccepts c7Inp.median (totalOffers c7Inp.current) = true ∧
    (runMain c7Inp).runStatus = RunStatus.success ∧
    (runMain c7Inp).snapshotRowsWritten = 40 := by
  refine ⟨by decide, by decide, ?_, ?_, ?_⟩
  · norm_num [gateAccepts, minAcceptable, c7Inp, totalOffers, garbagePage]
  · norm_num [runMain, gateAccepts, minAcceptable, c7Inp, totalOffers, garbagePage]
  · norm_num [runMain, gateAccepts, minAcceptable, c7Inp, totalOffers, garbagePage]

/-- C10 (counterexample): a parsed price of exactly 0 is not treated as
invalid: `detectChanges` pairs the prior "ZeroCo" offer priced 0 with the
current one priced 0.5 and emits a change whose percentage computation
divides by the zero prior price (JavaScript yields `Infinity` there; this
model's `ℚ` convention returns 0, and this statement does not depend on
that value) — contradicting the claim that a price of exactly 0 is excluded
from all comparisons. -/
theorem c10_counterexample :
    ((detectChanges [c10PrevPage] [c10CurrPage]).map fun c =>
        (c.ctype, c.supplier, c.prevRate, c.currRate)) =
      [(ChangeType.supplier_rate, some "ZeroCo", 0, 1 / 2)] := by
  norm_num [detectChanges, c10PrevPage, c10CurrPage, mkPage, mkSupplier, findPrevPage,
    defaultRateChanges, supplierChanges, supplierChangeFor, List.find?_cons,
    List.filterMap_cons]

/-- C10 (amended): only a null (unparsed) price is excluded from
comparisons — a current offer with a null price yields no change — while a
parsed price of 0 or below is excluded only by the best-offer selection,
whose result always carries a price strictly above the 0.1 sanity floor
(hence strictly positive). -/
theorem c10_amended :
    (∀ (rows : List OfferRow) (r : OfferRow), bestFixedOffer rows = some r →
        ∃ p, r.price = some p ∧ (1 : ℚ) / 10 < p) ∧
    (∀ (prev c : Page) (cs : Supplier), cs.price = none →
        supplierChangeFor prev c cs = none) := by
  constructor
  · intro rows r h
    have hmem : r ∈ rows.filter offerQualifies := by
      rcases foldl_pickCheaper_mem (rows.filter offerQualifies) none r h with h1 | h2
      · exact absurd h1 (by simp)
      · exact h2
    have hq : offerQualifies r = true := (List.mem_filter.mp hmem).2
    rw [offerQualifies] at hq
    rcases hp : r.price with _ | p
    · rw [hp] at hq
      simp at hq
    · rw [hp] at hq
      refine ⟨p, rfl, ?_⟩
      simp only [Bool.and_eq_true, decide_eq_true_eq] at hq
      exact hq.1.2
  · intro prev c cs hnull
    rw [supplierChangeFor, hnull]
    cases prev.suppliers.find? fun s : Supplier => decide (s.name = cs.name) with
    | none => rfl
    | some ps =>
        rcases hps : ps.price with _ | pp
        · simp [hps]
        · simp [hps]

/-- C10 (witness): the amended theorem applied to a one-row table holding a
qualifying offer at price 0.9, and to a current offer whose price failed to
parse. -/
theorem c10_witness :
    (∃ p, c10Row.price = some p ∧ (1 : ℚ) / 10 < p) ∧
    supplierChangeFor c10PrevPage c10CurrPage c10NullSup = none := by
  constructor
  · refine c10_amended.1 [c10Row] c10Row ?_
    have h1 : containsCI "12 month fixed rate plan" "bundle" = false := by decide
    have h2 : containsCI2 "12 month fixed rate plan" "electric" "gas" = false := by decide
    have h3 : containsCI2 "12 month fixed rate plan" "gas" "electric" = false := by decide
    have h4 : (decide ((1 : ℚ) / 10 < 9 / 10)) = true := decide_eq_true (by norm_num)
    have hq : offerQualifies c10Row = true := by
      simp [offerQualifies, c10Row, h1, h2, h3]
      norm_num
    simp [bestFixedOffer, List.filter, hq, pickCheaper]
  · exact c10_amended.2 c10PrevPage c10CurrPage c10NullSup rfl

/-- C3 (counterexample): the engine rounds the savings percentage to the
nearest integer before comparing with the threshold.  With baseline 1 and
best price 0.854 the true savings percentage is 14.6, strictly below the
default threshold of 15, yet the alert fires because
`Math.round(14.6) = 15`. -/
theorem c3_counterexample :
    alertFires "columbia" none (427 / 500) 0 c3Sub = true ∧
    ((1 : ℚ) - 427 / 500 / 1) * 100 < 15 ∧
    thresholdOf c3Sub = 15 ∧ jsOrQ c3Sub.current_rate none = some 1 := by
  refine ⟨?_, by norm_num, by norm_num [thresholdOf, c3Sub], rfl⟩
  norm_num [alertFires, c3Sub, jsOrQ, thresholdOf, savingsPctOf, round_eq]

/-- C3 (amended): whenever the per-subscriber decision fires, the resolved
baseline (self-reported rate if present and non-zero, else the territory's
SCO rate) is positive, the savings percentage rounded to the nearest
integer — not the raw percentage — is at least the subscriber's threshold
(default 15), and either the subscriber was never alerted or at least 7
days have passed and, when a non-zero `last_alerted_rate` is recorded, the
best price moved by more than 3 percent relative to it. -/
theorem c3_amended (tKey : String) (sco : Option ℚ) (best : ℚ) (now : ℤ)
    (sub : Subscriber) (h : alertFires tKey sco best now sub = true) :
    ∃ baseline, jsOrQ sub.current_rate sco = some baseline ∧ 0 < baseline ∧
      thresholdOf sub ≤ (savingsPctOf baseline best : ℚ) ∧
      (sub.last_alerted_at = none ∨
        ∃ la, sub.last_alerted_at = some la ∧ la ≤ now - 7 * msPerDay ∧
          (∀ lar, sub.last_alerted_rate = some lar → lar ≠ 0 →
            3 / 100 < |best - lar| / lar)) := by
  rw [alertFires] at h
  by_cases ht : sub.territory = none ∧ tKey ≠ "columbia"
  · rw [if_pos ht] at h
    exact absurd h (by simp)
  · rw [if_neg ht] at h
    rcases hb : jsOrQ sub.current_rate sco with _ | baseline
    · simp only [hb] at h
      exact absurd h (by simp)
    · simp only [hb] at h
      refine ⟨baseline, rfl, ?_, ?_, ?_⟩
      · by_cases h0 : baseline ≤ 0
        · rw [if_pos h0] at h
          exact absurd h (by simp)
        · exact lt_of_not_le h0
      · by_cases h0 : baseline ≤ 0
        · rw [if_pos h0] at h
          exact absurd h (by simp)
        · rw [if_neg h0] at h
          by_cases h1 : (savingsPctOf baseline best : ℚ) < thresholdOf sub
          · rw [if_pos h1] at h
            exact absurd h (by simp)
          · exact not_lt.mp h1
      · by_cases h0 : baseline ≤ 0
        · rw [if_pos h0] at h
          exact absurd h (by simp)
        · rw [if_neg h0] at h
          by_cases h1 : (savingsPctOf baseline best : ℚ) < thresholdOf sub
          · rw [if_pos h1] at h
            exact absurd h (by simp)
          · rw [if_neg h1] at h
            rcases hla : sub.last_alerted_at with _ | la
            · exact Or.inl rfl
            · simp only [hla] at h
              refine Or.inr ⟨la, rfl, ?_, ?_⟩
              · by_cases h2 : now - 7 * msPerDay < la
                · rw [if_pos h2] at h
                  exact absurd h (by simp)
                · exact not_lt.mp h2
              · by_cases h2 : now - 7 * msPerDay < la
                · rw [if_pos h2] at h
                  exact absurd h (by simp)
                · rw [if_neg h2] at h
                  intro lar hlr hne
                  simp only [hlr] at h
                  rw [if_neg hne] at h
                  exact of_decide_eq_true h

/-- C3 (witness): the amended theorem applied to the firing subscriber of
the rounding scenario. -/
theorem c3_witness :
    ∃ baseline, jsOrQ c3Sub.current_rate none = some baseline ∧ 0 < baseline ∧
      thresholdOf c3Sub ≤ (savingsPctOf baseline (427 / 500) : ℚ) ∧
      (c3Sub.last_alerted_at = none ∨
        ∃ la, c3Sub.last_alerted_at = some la ∧ la ≤ 0 - 7 * msPerDay ∧
          (∀ lar, c3Sub.last_alerted_rate = some lar → lar ≠ 0 →
            3 / 100 < |(427 : ℚ) / 500 - lar| / lar)) :=
  c3_amended "columbia" none (427 / 500) 0 c3Sub
    (by norm_num [alertFires, c3Sub, jsOrQ, thresholdOf, savingsPctOf, round_eq])

/-- C1 (counterexample): with a trailing-7-day median of 5 a one-offer batch
is strictly below 30 percent of the median (1 < 1.5), so the claim requires
rejection — but the gate's threshold is `Math.floor(5 * 0.3) = 1`, so the
batch is accepted, the run is finalized `success` and the snapshot is
written. -/
theorem c1_counterexample :
    c1AcceptLowInp.median = some 5 ∧
    ((totalOffers c1AcceptLowInp.current : ℚ) < 3 / 10 * 5) ∧
    gateAccepts c1AcceptLowInp.median (totalOffers c1AcceptLowInp.current) = true ∧
    (runMain c1AcceptLowInp).runStatus = RunStatus.success ∧
    (runMain c1AcceptLowInp).snapshotRowsWritten = 1 := by
  refine ⟨rfl, ?_, ?_, ?_, ?_⟩
  · norm_num [totalOffers, c1AcceptLowInp, mkPage, mkSupplier]
  · norm_num [gateAccepts, minAcceptable, c1AcceptLowInp, totalOffers, mkPage, mkSupplier]
  · norm_num [runMain, gateAccepts, minAcceptable, c1AcceptLowInp, totalOffers, mkPage,
      mkSupplier]
  · norm_num [runMain, gateAccepts, minAcceptable, c1AcceptLowInp, totalOffers, mkPage,
      mkSupplier]

/-- C1 (amended): the gate's floor is `⌊median × 0.3⌋` (30 when no median
exists or it is zero, both falsy): a batch reaching that integer floor is
accepted even when strictly below 30 percent of the median; every batch
below the floor is rejected, and on rejection nothing is written — no
latest-file write, no snapshot rows, no offer rows, no events, no baseline
write — the run record is finalized `invalid` with a diagnostic message and
exactly one operator (Discord) notification is sent. -/
theorem c1_amended (inp : MainInputs) :
    (((totalOffers inp.current : ℤ) < minAcceptable inp.median) →
      (runMain inp).runStatus = RunStatus.invalid ∧
      (runMain inp).latestWritten = false ∧
      (runMain inp).snapshotRowsWritten = 0 ∧
      (runMain inp).offerRowsWritten = 0 ∧
      (runMain inp).eventsRecorded = [] ∧
      (runMain inp).baselineWritten = false ∧
      (runMain inp).runHadErrorMessage = true ∧
      (runMain inp).discordAlerts = 1) ∧
    ((minAcceptable inp.median ≤ (totalOffers inp.current : ℤ)) →
      (runMain inp).runStatus = RunStatus.success ∧
      (runMain inp).latestWritten = true ∧
      (runMain inp).discordAlerts = 0) := by
  constructor
  · intro hlt
    have hg : gateAccepts inp.median (totalOffers inp.current) = false :=
      decide_eq_false (not_le.mpr hlt)
    simp [runMain, hg]
  · intro hle
    have hg : gateAccepts inp.median (totalOffers inp.current) = true := decide_eq_true hle
    simp [runMain, hg]

/-- C1 (witness): the amended theorem applied to the rejecting scenario
(5 offers against median 200) and the accepting boundary scenario (1 offer
against median 5). -/
theorem c1_witness :
    (runMain c1RejectInp).runStatus = RunStatus.invalid ∧
    (runMain c1AcceptLowInp).runStatus = RunStatus.success := by
  have h1 : (totalOffers c1RejectInp.current : ℤ) < minAcceptable c1RejectInp.median := by
    norm_num [minAcceptable, totalOffers, c1RejectInp, mkPage, mkSupplier]
  have h2 : minAcceptable c1AcceptLowInp.median ≤ (totalOffers c1AcceptLowInp.current : ℤ) := by
    norm_num [minAcceptable, totalOffers, c1AcceptLowInp, mkPage, mkSupplier]
  exact ⟨((c1_amended c1RejectInp).1 h1).1, ((c1_amended c1AcceptLowInp).2 h2).1⟩

/-- C5 (counterexample): an accepted batch whose `insertSupplierOffers` call
fails while `insertSnapshot` succeeds: the snapshot row is committed, zero
offer rows are committed, events are still recorded, and the run is
finalized `success` — the writes are not one transaction, the partial state
is externally observable, and the run is not even marked `failed`. -/
theorem c5_counterexample :
    c5Inp.offersInsertFails = true ∧
    (runMain c5Inp).snapshotRowsWritten = 1 ∧
    (runMain c5Inp).offerRowsWritten = 0 ∧
    (runMain c5Inp).runStatus = RunStatus.success ∧
    (runMain c5Inp).eventsRecorded ≠ [] := by
  refine ⟨rfl, ?_, ?_, ?_, ?_⟩ <;>
    norm_num [runMain, gateAccepts, minAcceptable, c5Inp, totalOffers, mkPage, mkSupplier,
      recordedChanges, significantChanges, significant, capTop20, sortByPctDesc,
      insertByPctDesc, detectChanges, findPrevPage, defaultRateChanges, supplierChanges,
      supplierChangeFor, List.find?_cons, List.filterMap_cons, List.filter, pctOf,
      toFixed2, round_eq]

/-- C5 (amended): each bulk insert is individually atomic (a failed
`insertSnapshot` or `insertSupplierOffers` contributes no rows, a successful
one contributes every row), and a gate-rejected run writes nothing at all;
but the snapshot write, the offers write, the per-event inserts and the run
finalization are separate transactions: a failure in one does not roll back
the others, the run is finalized `success` regardless, and the recorded
events are some prefix of the full event list (a mid-loop failure commits
the events already inserted). -/
theorem c5_amended (inp : MainInputs) :
    (gateAccepts inp.median (totalOffers inp.current) = false →
      (runMain inp).snapshotRowsWritten = 0 ∧ (runMain inp).offerRowsWritten = 0 ∧
      (runMain inp).eventsRecorded = [] ∧ (runMain inp).baselineWritten = false) ∧
    (gateAccepts inp.median (totalOffers inp.current) = true →
      ((runMain inp).snapshotRowsWritten =
        if inp.snapshotInsertFails then 0 else totalOffers inp.current) ∧
      ((runMain inp).offerRowsWritten =
        if inp.offersInsertFails then 0 else totalOffers inp.current) ∧
      (runMain inp).runStatus = RunStatus.success ∧
      (runMain inp).runRowCount = (runMain inp).offerRowsWritten ∧
      (∃ k, (runMain inp).eventsRecorded = (fullEvents inp).take k)) := by
  constructor
  · intro hg
    simp [runMain, hg]
  · intro hg
    refine ⟨by simp [runMain, hg], by simp [runMain, hg], by simp [runMain, hg],
      by simp [runMain, hg], ?_⟩
    rcases hbl : inp.baseline with _ | prevB
    · exact ⟨0, by simp [runMain, hg, hbl, fullEvents]⟩
    · rcases hev : inp.eventsFailAfter with _ | k
      · exact ⟨(recordedChanges prevB inp.current).length,
          by simp [runMain, hg, hbl, hev, fullEvents]⟩
      · exact ⟨k, by simp [runMain, hg, hbl, hev, fullEvents]⟩

/-- C5 (witness): the amended theorem applied to the accepted
partial-failure scenario. -/
theorem c5_witness :
    gateAccepts c5Inp.median (totalOffers c5Inp.current) = true ∧
    (runMain c5Inp).runStatus = RunStatus.success := by
  have hg : gateAccepts c5Inp.median (totalOffers c5Inp.current) = true := by
    norm_num [gateAccepts, minAcceptable, c5Inp, totalOffers, mkPage, mkSupplier]
  exact ⟨hg, ((c5_amended c5Inp).2 hg).2.2.1⟩

/-- C8 (counterexample): under `--dry-run` a firing subscriber is still
marked alerted (`last_alerted_at`/`last_alerted_rate` are updated, because
`sendEmail` returns without throwing) and the snapshot is still written —
only the outbound email is suppressed, contrary to the claim that no
database row is written and no subscriber is marked. -/
theorem c8_counterexample :
    c8AlertInp.dryRun = true ∧ c8MainInp.dryRun = true ∧
    (sendSubscriberAlertsT c8AlertInp).markedAlerted = [7] ∧
    (sendSubscriberAlertsT c8AlertInp).emailsSent = [] ∧
    (runMain c8MainInp).snapshotRowsWritten = 1 ∧
    (runMain c8MainInp).runStatus = RunStatus.success := by
  refine ⟨rfl, rfl, ?_, ?_, ?_, ?_⟩
  · norm_num [sendSubscriberAlertsT, c8AlertInp, c9Sub, alertFires, jsOrQ, thresholdOf,
      savingsPctOf, round_eq, List.filter]
  · norm_num [sendSubscriberAlertsT, c8AlertInp]
  · norm_num [runMain, gateAccepts, minAcceptable, c8MainInp, totalOffers, mkPage,
      mkSupplier]
  · norm_num [runMain, gateAccepts, minAcceptable, c8MainInp, totalOffers, mkPage,
      mkSupplier]

/-- C8 (amended): `--dry-run` changes exactly one thing — no email is handed
to the transport.  The persistence stages run identically (the flag is never
consulted there), and the set of subscribers marked alerted under dry-run
equals the set marked in a normal run in which every delivery succeeds. -/
theorem c8_amended :
    (∀ inp : MainInputs,
      runMain { inp with dryRun := true } = runMain { inp with dryRun := false }) ∧
    (∀ a : AlertInputs,
      (sendSubscriberAlertsT { a with dryRun := true }).emailsSent = [] ∧
      (sendSubscriberAlertsT { a with dryRun := true }).markedAlerted =
        (sendSubscriberAlertsT { a with dryRun := false, deliveryFails := [] }).markedAlerted) := by
  constructor
  · intro inp
    rfl
  · intro a
    rcases hb : a.bestPrice with _ | best
    · constructor <;> simp [sendSubscriberAlertsT, hb]
    · constructor <;> simp [sendSubscriberAlertsT, hb]

/-- C2 (counterexample): 21 territories each with a non-null to non-null,
non-zero default-rate change — the claim says every one of them is emitted
with no threshold.  All 21 pass the significance filter, but the change
with the smallest percentage (territory 0) is cut by the top-20 cap and is
never recorded in `rate_events`. -/
theorem c2_counterexample :
    (∃ c ∈ detectChanges c2PrevPages c2CurrPages,
        c.ctype = ChangeType.default_rate ∧ c.territoryId = 0 ∧ c.prevRate ≠ c.currRate) ∧
    (∀ c ∈ recordedChanges c2PrevPages c2CurrPages, c.territoryId ≠ 0) := by
  norm_num [detectChanges, c2PrevPages, c2CurrPages, drPage, findPrevPage, List.range_succ,
    defaultRateChanges, supplierChanges, supplierChangeFor, List.find?_cons,
    List.filterMap_cons, pctOf, toFixed2, round_eq, recordedChanges, significantChanges,
    significant, capTop20, sortByPctDesc, insertByPctDesc, territoryLabel]

/-- C2 (amended): as long as at most 20 changes pass the significance
filter, an event is recorded in `rate_events` exactly when `detectChanges`
produced it and it is a default-rate change or meets both thresholds —
absolute change at least 0.01 and percentage change, as computed by the
code (rounded to two decimal places), at least 5.  When more than 20
changes are significant, only the top 20 by absolute rounded percentage
change are recorded. -/
theorem c2_amended (previous current : List Page)
    (h : (significantChanges (detectChanges previous current)).length ≤ 20) (c : Change) :
    c ∈ recordedChanges previous current ↔
      c ∈ detectChanges previous current ∧
        (c.ctype = ChangeType.default_rate ∨
          ((1 : ℚ) / 100 ≤ |c.currRate - c.prevRate| ∧ (5 : ℚ) ≤ |c.changePct|)) := by
  unfold recordedChanges capTop20
  rw [List.take_of_length_le (by rw [(sortByPctDesc_perm _).length_eq]; exact h)]
  rw [(sortByPctDesc_perm _).mem_iff]
  unfold significantChanges
  rw [List.mem_filter, significant_eq_true_iff]

/-- C2 (witness): the amended theorem applied to a one-change scenario (a
price doubling, 100 percent), whose single significant change is recorded. -/
theorem c2_witness :
    (significantChanges (detectChanges [c2wPrevPage] [c2wCurrPage])).length ≤ 20 ∧
    (c2wChange ∈ recordedChanges [c2wPrevPage] [c2wCurrPage] ↔
      (c2wChange ∈ detectChanges [c2wPrevPage] [c2wCurrPage] ∧
        (c2wChange.ctype = ChangeType.default_rate ∨
          ((1 : ℚ) / 100 ≤ |c2wChange.currRate - c2wChange.prevRate| ∧
            (5 : ℚ) ≤ |c2wChange.changePct|)))) := by
  have h : (significantChanges (detectChanges [c2wPrevPage] [c2wCurrPage])).length ≤ 20 := by
    norm_num [significantChanges, significant, detectChanges, c2wPrevPage, c2wCurrPage,
      mkPage, mkSupplier, findPrevPage, defaultRateChanges, supplierChanges,
      supplierChangeFor, List.find?_cons, List.filterMap_cons, List.filter, pctOf,
      toFixed2, round_eq]
  exact ⟨h, c2_amended [c2wPrevPage] [c2wCurrPage] h c2wChange⟩

end RateWatch
